import Mathlib

/-!
Verification of the Krapi CMS development manager scripts.

The repository contains two near-duplicate supervisor scripts:
* `start-manager.py` — modelled below in namespace `SM`;
* `StartManager.py`  — modelled below in namespace `Mgr`.

External effects (wall-clock timestamps, `subprocess.run` exit codes,
`subprocess.Popen` results, filesystem existence checks, the psutil view of
OS processes) are passed in explicitly through environment records, and the
subprocess/psutil calls a method performs are recorded in an action trace.
-/

namespace Krapi

/-- Python list slice `xs[-n:]`: the last `n` elements of `xs` (all of `xs`
when it is shorter than `n`). -/
def lastN (n : Nat) (xs : List α) : List α :=
  ((xs.reverse).take n).reverse

/-- Retention step of `start-manager.py`'s `log_message`: keep a list as is
while it has at most 1000 entries, otherwise keep only the last 1000. -/
def trim1000 (xs : List α) : List α :=
  if xs.length > 1000 then lastN 1000 xs else xs

/-- Python's `needle in hay` on strings: substring containment. -/
def strContains (hay needle : String) : Bool :=
  hay.toList.tails.any fun t => needle.toList.isPrefixOf t

/-- Handle to a child process created by `subprocess.Popen`; `alive` is the
current answer of `poll()` (`alive = true` iff `poll()` returns `None`). -/
structure ProcHandle where
  pid : Nat
  alive : Bool
deriving DecidableEq, Repr

namespace SM

/-- Log store of `start-manager.py`: the dict `self.logs` built in
`KrapiCMSManager.__init__` with keys `combined`, `api`, `frontend`,
`websocket`, each mapped to a list of formatted entries. -/
structure Logs where
  combined : List String
  api : List String
  frontend : List String
  websocket : List String
deriving DecidableEq, Repr

/-- Initial log store: every channel starts empty. -/
def initLogs : Logs := ⟨[], [], [], []⟩

/-- Dict lookup `self.logs[k]`; `none` models a `KeyError`. -/
def Logs.get? (l : Logs) (k : String) : Option (List String) :=
  if k = "combined" then some l.combined
  else if k = "api" then some l.api
  else if k = "frontend" then some l.frontend
  else if k = "websocket" then some l.websocket
  else none

/-- Dict update `self.logs[k] = v` (identity on a key that is not present;
the guarded paths of the source only ever update present keys). -/
def Logs.set (l : Logs) (k : String) (v : List String) : Logs :=
  if k = "combined" then { l with combined := v }
  else if k = "api" then { l with api := v }
  else if k = "frontend" then { l with frontend := v }
  else if k = "websocket" then { l with websocket := v }
  else l

/-- Entry formatting of `log_message`: `f"[{timestamp}] {message}"`. -/
def fmt (ts msg : String) : String := "[" ++ ts ++ "] " ++ msg

/-- KrapiCMSManager.log_message of `start-manager.py` (lines 125-138).
Appends the formatted entry to `self.logs[log_type]` (a `KeyError`, modelled
as `none`, when `log_type` is not a key), fans it into `combined` when
`log_type` is not itself `combined`, and then trims `self.logs[log_type]`
(only that channel) to its last 1000 entries. -/
def log_message (l : Logs) (ts msg log_type : String) : Option Logs :=
  let log_entry := fmt ts msg
  match l.get? log_type with
  | none => none
  | some chan =>
    let l1 := l.set log_type (chan ++ [log_entry])
    let l2 := if log_type ≠ "combined"
              then l1.set "combined" (l1.combined ++ [log_entry])
              else l1
    match l2.get? log_type with
    | none => none
    | some chan2 =>
      some (if chan2.length > 1000 then l2.set log_type (lastN 1000 chan2) else l2)

/-- Valid channel names of `start-manager.py`'s log dict. -/
def validChannel (t : String) : Prop :=
  t = "combined" ∨ t = "api" ∨ t = "frontend" ∨ t = "websocket"

instance (t : String) : Decidable (validChannel t) := by
  unfold validChannel
  infer_instance

/-- Per-service channel names of `start-manager.py`. -/
def perService (t : String) : Prop :=
  t = "api" ∨ t = "frontend" ∨ t = "websocket"

instance (t : String) : Decidable (perService t) := by
  unfold perService
  infer_instance

/-- Argument record of one `log_message` call. -/
structure Call where
  ts : String
  msg : String
  log_type : String
deriving DecidableEq, Repr

/-- Effect of one `log_message` call on the log store (a call that raises
`KeyError` leaves the store unchanged, as the source mutates nothing before
the failing dict lookup). -/
def applyCall (l : Logs) (k : Call) : Logs :=
  (log_message l k.ts k.msg k.log_type).getD l

/-- Effect of a sequence of `log_message` calls, first call first. -/
def applyCalls (l : Logs) (ks : List Call) : Logs :=
  ks.foldl applyCall l

/-- Formatted entries a call sequence appends to the channel named `c`
(for a per-service channel: exactly the calls targeting `c`). -/
def entriesFor (c : String) (ks : List Call) : List String :=
  (ks.filter (fun k => k.log_type == c)).map fun k => fmt k.ts k.msg

/-- External facts consumed by `start-manager.py`'s manager methods: the
wall clock, command discovery, filesystem checks, `npm install` results and
`Popen` outcomes. One record value describes one invocation. -/
structure Env where
  ts : String
  npm_cmd : Option String
  api_manifest : Bool
  api_node_modules : Bool
  api_install_code : Int
  api_install_stderr : String
  api_popen : Option ProcHandle
  api_popen_err : String
  frontend_manifest : Bool
  frontend_node_modules : Bool
  frontend_install_code : Int
  frontend_install_stderr : String
  frontend_popen : Option ProcHandle
  frontend_popen_err : String
  api_stop_times_out : Bool
  frontend_stop_times_out : Bool
deriving DecidableEq, Repr

/-- Mutable fields of `KrapiCMSManager` in `start-manager.py` that the
process-lifecycle methods read or write. -/
structure State where
  logs : Logs
  api_process : Option ProcHandle
  frontend_process : Option ProcHandle
  websocket_process : Option ProcHandle
  api_status : String
  frontend_status : String
  websocket_status : String
deriving DecidableEq, Repr

/-- State right after `__init__`: no processes, all services `Stopped`. -/
def initState : State :=
  { logs := initLogs
    api_process := none
    frontend_process := none
    websocket_process := none
    api_status := "Stopped"
    frontend_status := "Stopped"
    websocket_status := "Stopped" }

/-- Subprocess calls a `start-manager.py` method performs, in order. -/
inductive Action where
  | runInstall (cwd : String)
  | popen (cwd : String)
  | terminate (pid : Nat)
  | kill (pid : Nat)
deriving DecidableEq, Repr

/-- Convenience wrapper: `self.log_message(msg, lt)` on the state. All call
sites in the source pass one of the four existing keys, so the `KeyError`
case never fires. -/
def logState (st : State) (ts msg lt : String) : State :=
  { st with logs := (log_message st.logs ts msg lt).getD st.logs }

/-- Truthiness of `self.api_process and self.api_process.poll() is None`. -/
def apiAlive (st : State) : Bool :=
  (st.api_process.map ProcHandle.alive).getD false

/-- Truthiness of the same guard for the frontend process. -/
def frontendAlive (st : State) : Bool :=
  (st.frontend_process.map ProcHandle.alive).getD false

/-- Tail of `start_api_server`'s try block from the `Popen` call on: spawn
the child (an exception from `Popen`, modelled by `env.api_popen = none`, is
caught and logged), record the handle, and set status `Starting...`. The
`log_api_output` and `check_api_startup` daemon threads it launches are
modelled separately by `api_output_line` and `check_api_startup`. -/
def startApiSpawn (env : Env) (st : State) (tr : List Action) :
    State × List Action :=
  match env.api_popen with
  | none =>
    (logState st env.ts ("Error starting API server: " ++ env.api_popen_err)
      "combined", tr)
  | some p =>
    let st1 := { st with api_process := some p }
    let st2 := { st1 with api_status := "Starting..." }
    (st2, tr ++ [Action.popen "api-server"])

/-- KrapiCMSManager.start_api_server of `start-manager.py` (lines 439-489):
early returns when the tracked process is alive, npm is missing, or
`api-server/package.json` is missing; otherwise runs `npm install` first
when `api-server/node_modules` is absent (a non-zero exit aborts the
attempt), then spawns `npm run dev`. -/
def start_api_server (env : Env) (st : State) : State × List Action :=
  if apiAlive st then
    (logState st env.ts "API server is already running" "combined", [])
  else if env.npm_cmd.isNone then
    (logState st env.ts "Error: npm not found. Please install Node.js"
      "combined", [])
  else if !env.api_manifest then
    (logState st env.ts "Error: API server package.json not found"
      "combined", [])
  else
    let st1 := logState st env.ts "Starting API server..." "combined"
    if !env.api_node_modules then
      let st2 := logState st1 env.ts "Installing API dependencies..."
        "combined"
      if env.api_install_code ≠ 0 then
        (logState st2 env.ts
          ("Error installing API dependencies: " ++ env.api_install_stderr)
          "combined",
         [Action.runInstall "api-server"])
      else
        startApiSpawn env st2 [Action.runInstall "api-server"]
    else
      startApiSpawn env st1 []

/-- Tail of `start_frontend_server`'s try block from the `Popen` call on,
mirroring `startApiSpawn`. -/
def startFrontendSpawn (env : Env) (st : State) (tr : List Action) :
    State × List Action :=
  match env.frontend_popen with
  | none =>
    (logState st env.ts
      ("Error starting frontend server: " ++ env.frontend_popen_err)
      "combined", tr)
  | some p =>
    let st1 := { st with frontend_process := some p }
    let st2 := { st1 with frontend_status := "Starting..." }
    (st2, tr ++ [Action.popen "admin-frontend"])

/-- KrapiCMSManager.start_frontend_server of `start-manager.py` (lines
491-542), mirroring `start_api_server` for `admin-frontend`. -/
def start_frontend_server (env : Env) (st : State) : State × List Action :=
  if frontendAlive st then
    (logState st env.ts "Frontend server is already running" "combined", [])
  else if env.npm_cmd.isNone then
    (logState st env.ts "Error: npm not found. Please install Node.js"
      "combined", [])
  else if !env.frontend_manifest then
    (logState st env.ts "Error: Frontend package.json not found"
      "combined", [])
  else
    let st1 := logState st env.ts "Starting frontend server..." "combined"
    if !env.frontend_node_modules then
      let st2 := logState st1 env.ts "Installing frontend dependencies..."
        "combined"
      if env.frontend_install_code ≠ 0 then
        (logState st2 env.ts
          ("Error installing frontend dependencies: " ++
            env.frontend_install_stderr)
          "combined",
         [Action.runInstall "admin-frontend"])
      else
        startFrontendSpawn env st2 [Action.runInstall "admin-frontend"]
    else
      startFrontendSpawn env st1 []

/-- KrapiCMSManager.stop_api_server of `start-manager.py` (lines 551-564):
the whole body is guarded by `if self.api_process:`, so a manager with no
tracked handle does nothing at all; otherwise terminate, escalate to kill
after a 10 second wait timeout, drop the handle and report `Stopped`. -/
def stop_api_server (env : Env) (st : State) : State × List Action :=
  match st.api_process with
  | none => (st, [])
  | some p =>
    let st1 := logState st env.ts "Stopping API server..." "combined"
    let tr := if env.api_stop_times_out
              then [Action.terminate p.pid, Action.kill p.pid]
              else [Action.terminate p.pid]
    let st2 := { st1 with api_process := none, api_status := "Stopped" }
    (logState st2 env.ts "API server stopped" "combined", tr)

/-- KrapiCMSManager.stop_frontend_server of `start-manager.py` (lines
566-579), mirroring `stop_api_server`. -/
def stop_frontend_server (env : Env) (st : State) : State × List Action :=
  match st.frontend_process with
  | none => (st, [])
  | some p =>
    let st1 := logState st env.ts "Stopping frontend server..." "combined"
    let tr := if env.frontend_stop_times_out
              then [Action.terminate p.pid, Action.kill p.pid]
              else [Action.terminate p.pid]
    let st2 := { st1 with frontend_process := none,
                          frontend_status := "Stopped" }
    (logState st2 env.ts "Frontend server stopped" "combined", tr)

/-- Per-line body of `log_api_output`'s reader loop (lines 596-626): an
empty line is skipped, any other line is stripped, prefixed `[API] ` and
logged to the `api` channel. In text mode the line is already a decoded
string, so the `bytes` fallback branches never run. The loop never touches
`api_status`. -/
def api_output_line (st : State) (ts line : String) : State :=
  if line = "" then st
  else logState st ts ("[API] " ++ line.trim) "api"

/-- KrapiCMSManager.check_api_startup of `start-manager.py` (lines
692-703): after a 5 second sleep it decides readiness solely by the port
probe `is_port_in_use(3470)`, whose answer is passed in as
`port3470_in_use`. -/
def check_api_startup (st : State) (ts : String) (port3470_in_use : Bool) :
    State :=
  if port3470_in_use then
    let st1 := { st with api_status := "Running" }
    logState st1 ts "âœ“ API server started successfully on port 3470"
      "combined"
  else
    let st1 := { st with api_status := "Failed to start" }
    logState st1 ts "âœ— API server failed to start" "combined"

/-- KrapiCMSManager.clear_logs of `start-manager.py` (lines 403-409):
empties exactly the channel currently selected in the GUI combobox (passed
in as `log_type`); a key outside the dict would raise `KeyError`, modelled
as `none` (the combobox is read-only over the four keys). -/
def clear_logs (l : Logs) (log_type : String) : Option Logs :=
  match l.get? log_type with
  | none => none
  | some _ => some (l.set log_type [])

end SM

namespace Mgr

/-- Log store of `StartManager.py`: the dict `self.logs` built in
`KrapiCMSManager.__init__` with keys `combined`, `api`, `frontend` only
(there is no `websocket` channel in this script). -/
structure Logs where
  combined : List String
  api : List String
  frontend : List String
deriving DecidableEq, Repr

/-- Initial log store: every channel starts empty. -/
def initLogs : Logs := ⟨[], [], []⟩

/-- Dict membership `log_type in self.logs`. -/
def hasKey (k : String) : Bool :=
  k = "combined" || k = "api" || k = "frontend"

/-- Dict lookup `self.logs[k]` on the guarded paths (only reached for
present keys). -/
def Logs.get (l : Logs) (k : String) : List String :=
  if k = "combined" then l.combined
  else if k = "api" then l.api
  else if k = "frontend" then l.frontend
  else []

/-- Dict update `self.logs[k] = v` on the guarded paths. -/
def Logs.set (l : Logs) (k : String) (v : List String) : Logs :=
  if k = "combined" then { l with combined := v }
  else if k = "api" then { l with api := v }
  else if k = "frontend" then { l with frontend := v }
  else l

/-- Entry formatting of `log_message`: `f"[{timestamp}] {message}"` (the
timestamp format string differs from `start-manager.py` but the shape of
the entry is the same; the rendered timestamp arrives as `ts`). -/
def fmt (ts msg : String) : String := "[" ++ ts ++ "] " ++ msg

/-- KrapiCMSManager.log_message of `StartManager.py` (lines 248-259):
appends the formatted entry to `combined` unconditionally, then to
`self.logs[log_type]` when that key exists. Note that `log_type =
"combined"` passes the membership test, so such a call appends the entry to
`combined` twice, and no channel is ever trimmed. -/
def log_message (l : Logs) (ts msg log_type : String) : Logs :=
  let formatted_message := fmt ts msg
  let l1 := { l with combined := l.combined ++ [formatted_message] }
  if hasKey log_type
  then l1.set log_type (l1.get log_type ++ [formatted_message])
  else l1

/-- One entry of psutil's process table: a process id, the local ports of
its connections, and whether the process is currently running. -/
structure OsProc where
  pid : Nat
  ports : List Nat
  alive : Bool
deriving DecidableEq, Repr

/-- External facts consumed by `StartManager.py`'s manager methods. The
`api_manifest` and `frontend_manifest` facts record whether the two
`package.json` files exist; this script never consults them. -/
structure Env where
  ts : String
  api_manifest : Bool
  frontend_manifest : Bool
  new_api_proc : ProcHandle
  new_frontend_proc : ProcHandle
  api_stop_times_out : Bool
  frontend_stop_times_out : Bool
deriving DecidableEq, Repr

/-- Mutable fields of `KrapiCMSManager` in `StartManager.py` that the
process-lifecycle methods read or write, together with psutil's view of the
OS process table (mutated by `kill_port`). -/
structure State where
  logs : Logs
  api_process : Option ProcHandle
  frontend_process : Option ProcHandle
  processes_api : Option ProcHandle
  processes_frontend : Option ProcHandle
  api_status : String
  frontend_status : String
  dependencies_status : String
  os_procs : List OsProc
deriving DecidableEq, Repr

/-- State right after `__init__` when psutil sees the process table
`procs`: no tracked processes, both services `Stopped`. -/
def initState (procs : List OsProc) : State :=
  { logs := initLogs
    api_process := none
    frontend_process := none
    processes_api := none
    processes_frontend := none
    api_status := "Stopped"
    frontend_status := "Stopped"
    dependencies_status := "Checking..."
    os_procs := procs }

/-- Subprocess/psutil calls a `StartManager.py` method performs, in
order. -/
inductive Action where
  | killProc (pid port : Nat)
  | sleep (secs : Nat)
  | popen (cwd : String)
  | terminate (pid : Nat)
  | kill (pid : Nat)
deriving DecidableEq, Repr

/-- KrapiCMSManager.update_status of `StartManager.py` (lines 288-301),
restricted to the stored status strings (the tkinter `StringVar` mirrors
are display-only). -/
def update_status (st : State) (service status : String) : State :=
  if service = "api" then { st with api_status := status }
  else if service = "frontend" then { st with frontend_status := status }
  else if service = "dependencies" then
    { st with dependencies_status := status }
  else st

/-- KrapiCMSManager.kill_port of `StartManager.py` (lines 442-454): walks
psutil's process table and kills every running process that has a
connection whose local port equals `port`, logging one line per kill.
(After the first matching connection kills a process, a further `kill()` on
it raises `NoSuchProcess`, which the source swallows, so each matching
process is killed and logged once.) -/
def kill_port (ts : String) (st : State) (port : Nat) :
    State × List Action :=
  let victims := st.os_procs.filter fun pr => pr.alive && pr.ports.contains port
  let logs := victims.foldl
    (fun l pr =>
      log_message l ts
        ("Killed process " ++ toString pr.pid ++ " using port " ++
          toString port)
        "combined")
    st.logs
  ({ st with
      logs := logs
      os_procs := st.os_procs.map fun pr =>
        if pr.alive && pr.ports.contains port
        then { pr with alive := false }
        else pr },
   victims.map fun pr => Action.killProc pr.pid port)

/-- Truthiness of `self.api_process and self.api_process.poll() is None`. -/
def apiAlive (st : State) : Bool :=
  (st.api_process.map ProcHandle.alive).getD false

/-- Truthiness of the same guard for the frontend process. -/
def frontendAlive (st : State) : Bool :=
  (st.frontend_process.map ProcHandle.alive).getD false

/-- KrapiCMSManager.start_api_server of `StartManager.py` (lines 456-503)
through the `Popen` call: early return when the tracked process is alive;
otherwise the worker thread logs, sets status `Starting...`, kills
everything on port 3001, sleeps 2 seconds and spawns `pnpm dev` — with no
manifest or dependency check of any kind. The thread then blocks reading
the child's output; that monitor loop is modelled per line by
`api_monitor_line` and at stream end by `api_monitor_exit`. -/
def start_api_server (env : Env) (st : State) : State × List Action :=
  if apiAlive st then
    ({ st with logs := log_message st.logs env.ts "API server is already running" "api" }, [])
  else
    let st1 := { st with logs := log_message st.logs env.ts "Starting API server..." "api" }
    let st2 := update_status st1 "api" "Starting..."
    let p := kill_port env.ts st2 3001
    let st3 := { p.1 with api_process := some env.new_api_proc }
    let st4 := { st3 with processes_api := some env.new_api_proc }
    (st4, p.2 ++ [Action.sleep 2, Action.popen "api-server"])

/-- Per-line body of the monitor loop inside `start_api_server` (lines
485-489): log the stripped line to the `api` channel and set status
`Running` as soon as the line contains `"Server running on port 3001"` or
`"listening on port 3001"` — no port probe is involved. -/
def api_monitor_line (st : State) (ts line : String) : State :=
  if line = "" then st
  else
    let st1 := { st with logs := log_message st.logs ts line.trim "api" }
    if strContains line "Server running on port 3001" ||
       strContains line "listening on port 3001"
    then update_status st1 "api" "Running"
    else st1

/-- Tail of `start_api_server`'s worker thread after the child's output
stream ends (lines 491-497): log a non-zero exit code and report
`Stopped`. -/
def api_monitor_exit (st : State) (ts : String) (return_code : Int) :
    State :=
  let st1 :=
    if return_code ≠ 0 then
      { st with logs := log_message st.logs ts ("API server exited with code " ++ toString return_code) "api" }
    else st
  update_status st1 "api" "Stopped"

/-- KrapiCMSManager.start_frontend of `StartManager.py` (lines 527-574)
through the `Popen` call, mirroring `start_api_server` with port 3000 and
the `admin-frontend` directory. -/
def start_frontend (env : Env) (st : State) : State × List Action :=
  if frontendAlive st then
    ({ st with logs := log_message st.logs env.ts "Frontend is already running" "frontend" }, [])
  else
    let st1 := { st with logs := log_message st.logs env.ts "Starting frontend..." "frontend" }
    let st2 := update_status st1 "frontend" "Starting..."
    let p := kill_port env.ts st2 3000
    let st3 := { p.1 with frontend_process := some env.new_frontend_proc }
    let st4 := { st3 with processes_frontend := some env.new_frontend_proc }
    (st4, p.2 ++ [Action.sleep 2, Action.popen "admin-frontend"])

/-- KrapiCMSManager.stop_api_server of `StartManager.py` (lines 505-525):
with a tracked handle, terminate (escalating to kill on a wait timeout),
drop the handle, report `Stopped` and log; with no tracked handle, fall
back to `kill_port(3001)` and report `Stopped`. -/
def stop_api_server (env : Env) (st : State) : State × List Action :=
  match st.api_process with
  | some p =>
    let st1 := { st with logs := log_message st.logs env.ts "Stopping API server..." "api" }
    if env.api_stop_times_out then
      let st2 := { st1 with api_process := none, api_status := "Stopped" }
      ({ st2 with logs := log_message st2.logs env.ts "API server force killed" "api" },
       [Action.terminate p.pid, Action.kill p.pid])
    else
      let st2 := { st1 with api_process := none, api_status := "Stopped" }
      ({ st2 with logs := log_message st2.logs env.ts "API server stopped" "api" },
       [Action.terminate p.pid])
  | none =>
    let p := kill_port env.ts st 3001
    (update_status p.1 "api" "Stopped", p.2)

/-- KrapiCMSManager.stop_frontend of `StartManager.py` (lines 576-596),
mirroring `stop_api_server` with port 3000. -/
def stop_frontend (env : Env) (st : State) : State × List Action :=
  match st.frontend_process with
  | some p =>
    let st1 := { st with logs := log_message st.logs env.ts "Stopping frontend..." "frontend" }
    if env.frontend_stop_times_out then
      let st2 := { st1 with frontend_process := none,
                            frontend_status := "Stopped" }
      ({ st2 with logs := log_message st2.logs env.ts "Frontend force killed" "frontend" },
       [Action.terminate p.pid, Action.kill p.pid])
    else
      let st2 := { st1 with frontend_process := none,
                            frontend_status := "Stopped" }
      ({ st2 with logs := log_message st2.logs env.ts "Frontend stopped" "frontend" },
       [Action.terminate p.pid])
  | none =>
    let p := kill_port env.ts st 3000
    (update_status p.1 "frontend" "Stopped", p.2)

/-- KrapiCMSManager.clear_logs of `StartManager.py` (lines 277-286):
rebinds `self.logs` to a dict of three fresh empty lists — every channel is
emptied, it takes no channel argument — and then logs `Logs cleared`. -/
def clear_logs (ts : String) (st : State) : State :=
  let st1 := { st with logs := (⟨[], [], []⟩ : Logs) }
  { st1 with logs := log_message st1.logs ts "Logs cleared" "combined" }

end Mgr

theorem lastN_length_le (n : Nat) (xs : List α) : (lastN n xs).length ≤ n := by
  simp only [lastN, List.length_reverse, List.length_take]
  omega

theorem lastN_of_length_le {n : Nat} {xs : List α} (h : xs.length ≤ n) :
    lastN n xs = xs := by
  unfold lastN
  rw [List.take_of_length_le (by simpa using h), List.reverse_reverse]

theorem lastN_append_left (n : Nat) (xs E : List α) :
    lastN n (lastN n xs ++ E) = lastN n (xs ++ E) := by
  unfold lastN
  rw [List.reverse_append, List.reverse_reverse, List.reverse_append]
  rw [List.take_append_eq_append_take, List.take_append_eq_append_take]
  rw [List.take_take]
  rw [inf_eq_left.mpr (Nat.sub_le n E.reverse.length)]

theorem trim1000_eq_lastN (xs : List α) : trim1000 xs = lastN 1000 xs := by
  unfold trim1000
  by_cases h : xs.length > 1000
  · rw [if_pos h]
  · rw [if_neg h, lastN_of_length_le (Nat.le_of_not_lt h)]

theorem SM.log_message_combined_eq (l : SM.Logs) (ts msg : String) :
    SM.log_message l ts msg "combined" =
      some { l with combined := trim1000 (l.combined ++ [SM.fmt ts msg]) } := by
  by_cases h : 1000 < l.combined.length + 1 <;>
    simp [SM.log_message, SM.Logs.get?, SM.Logs.set, trim1000, h]

theorem SM.log_message_api_eq (l : SM.Logs) (ts msg : String) :
    SM.log_message l ts msg "api" =
      some { l with api := trim1000 (l.api ++ [SM.fmt ts msg]),
                    combined := l.combined ++ [SM.fmt ts msg] } := by
  by_cases h : 1000 < l.api.length + 1 <;>
    simp [SM.log_message, SM.Logs.get?, SM.Logs.set, trim1000, h]

theorem SM.log_message_frontend_eq (l : SM.Logs) (ts msg : String) :
    SM.log_message l ts msg "frontend" =
      some { l with frontend := trim1000 (l.frontend ++ [SM.fmt ts msg]),
                    combined := l.combined ++ [SM.fmt ts msg] } := by
  by_cases h : 1000 < l.frontend.length + 1 <;>
    simp [SM.log_message, SM.Logs.get?, SM.Logs.set, trim1000, h]

theorem SM.log_message_websocket_eq (l : SM.Logs) (ts msg : String) :
    SM.log_message l ts msg "websocket" =
      some { l with websocket := trim1000 (l.websocket ++ [SM.fmt ts msg]),
                    combined := l.combined ++ [SM.fmt ts msg] } := by
  by_cases h : 1000 < l.websocket.length + 1 <;>
    simp [SM.log_message, SM.Logs.get?, SM.Logs.set, trim1000, h]

theorem SM.applyCall_get_perService (l : SM.Logs) (k : SM.Call) (c : String)
    (hc : SM.perService c) (hv : SM.validChannel k.log_type) :
    (SM.applyCall l k).get? c =
      if k.log_type = c
      then some (trim1000 (((l.get? c).getD []) ++ [SM.fmt k.ts k.msg]))
      else l.get? c := by
  obtain ⟨ts, msg, lt⟩ := k
  rcases hv with h | h | h | h <;> subst h <;>
    rcases hc with h | h | h <;> subst h <;>
      simp [SM.applyCall, SM.log_message_combined_eq, SM.log_message_api_eq,
        SM.log_message_frontend_eq, SM.log_message_websocket_eq, SM.Logs.get?]

theorem SM.applyCalls_perService (c : String) (hc : SM.perService c) :
    ∀ ks : List SM.Call, (∀ k ∈ ks, SM.validChannel k.log_type) →
      ∀ (l : SM.Logs) (xs : List String),
        l.get? c = some xs → xs.length ≤ 1000 →
          (SM.applyCalls l ks).get? c =
            some (lastN 1000 (xs ++ SM.entriesFor c ks)) := by
  intro ks
  induction ks with
  | nil =>
    intro _ l xs hl hlen
    simp [SM.applyCalls, SM.entriesFor, lastN_of_length_le hlen, hl]
  | cons k ks ih =>
    intro hv l xs hl hlen
    have hvk : SM.validChannel k.log_type := hv k (by simp)
    have hv2 : ∀ k2 ∈ ks, SM.validChannel k2.log_type := fun k2 h2 =>
      hv k2 (by simp [h2])
    have step := SM.applyCall_get_perService l k c hc hvk
    have hfold : SM.applyCalls l (k :: ks) = SM.applyCalls (SM.applyCall l k) ks := rfl
    by_cases hkc : k.log_type = c
    · rw [if_pos hkc, hl] at step
      have hlen2 : (trim1000 (xs ++ [SM.fmt k.ts k.msg])).length ≤ 1000 := by
        rw [trim1000_eq_lastN]
        exact lastN_length_le _ _
      rw [hfold, ih hv2 (SM.applyCall l k) _ (by simpa using step) hlen2]
      rw [trim1000_eq_lastN, lastN_append_left]
      have hfilter : SM.entriesFor c (k :: ks) =
          SM.fmt k.ts k.msg :: SM.entriesFor c ks := by
        simp [SM.entriesFor, List.filter_cons, hkc]
      rw [hfilter]
      simp
    · rw [if_neg hkc, hl] at step
      have hfilter : SM.entriesFor c (k :: ks) = SM.entriesFor c ks := by
        simp [SM.entriesFor, List.filter_cons, hkc]
      rw [hfold, ih hv2 (SM.applyCall l k) xs (by simpa using step) hlen, hfilter]

theorem SM.applyCall_combined_api (l : SM.Logs) (ts msg : String) :
    (SM.applyCall l ⟨ts, msg, "api"⟩).combined =
      l.combined ++ [SM.fmt ts msg] := by
  simp [SM.applyCall, SM.log_message_api_eq]

theorem SM.applyCalls_replicate_api_combined_length (n : Nat) :
    ∀ l : SM.Logs,
      (SM.applyCalls l (List.replicate n ⟨"t", "m", "api"⟩)).combined.length =
        l.combined.length + n := by
  induction n with
  | zero => intro l; simp [SM.applyCalls]
  | succ n ih =>
    intro l
    rw [List.replicate_succ]
    have hfold : SM.applyCalls l (⟨"t", "m", "api"⟩ :: List.replicate n ⟨"t", "m", "api"⟩) =
        SM.applyCalls (SM.applyCall l ⟨"t", "m", "api"⟩) (List.replicate n ⟨"t", "m", "api"⟩) := rfl
    rw [hfold, ih, SM.applyCall_combined_api]
    simp
    omega

/-- C1: for every per-service channel of `start-manager.py` and every
sequence of `log_message` calls with valid log types, the channel holds
exactly the most recent (at most 1000) entries appended to it, in insertion
order — the claim as stated is refuted for the `combined` channel by
`C1_counterexample`, since fan-in appends never trim `combined`. -/
theorem C1_per_service_bounded_fifo (ks : List SM.Call)
    (hv : ∀ k ∈ ks, SM.validChannel k.log_type)
    (c : String) (hc : SM.perService c) :
    (SM.applyCalls SM.initLogs ks).get? c =
      some (lastN 1000 (SM.entriesFor c ks)) ∧
    (lastN 1000 (SM.entriesFor c ks)).length ≤ 1000 := by
  constructor
  · have hinit : SM.initLogs.get? c = some [] := by
      rcases hc with h | h | h <;> subst h <;> rfl
    simpa using SM.applyCalls_perService c hc ks hv SM.initLogs [] hinit
      (by simp)
  · exact lastN_length_le _ _

/-- C1 witness: one call targeting `api` lands in the `api` channel as its
single retained entry. -/
theorem C1_per_service_bounded_fifo_witness :
    (SM.applyCalls SM.initLogs [⟨"t", "m", "api"⟩]).get? "api" =
      some (lastN 1000 (SM.entriesFor "api" [⟨"t", "m", "api"⟩])) ∧
    (lastN 1000 (SM.entriesFor "api" [⟨"t", "m", "api"⟩])).length ≤ 1000 :=
  C1_per_service_bounded_fifo [⟨"t", "m", "api"⟩] (by decide) "api"
    (Or.inl rfl)

/-- C1 counterexample: after 1001 `log_message` calls targeting the `api`
channel, the `combined` channel stores 1001 entries — the claimed 1000
bound fails for `combined`, because the trim step only ever touches
`self.logs[log_type]`. -/
theorem C1_counterexample :
    (SM.applyCalls SM.initLogs
        (List.replicate 1001 ⟨"t", "m", "api"⟩)).combined.length = 1001 ∧
    1001 > 1000 := by
  constructor
  · rw [SM.applyCalls_replicate_api_combined_length 1001 SM.initLogs]
    rfl
  · decide

theorem Mgr.logMessage_combined_eq (l : Mgr.Logs) (ts msg : String) :
    Mgr.log_message l ts msg "combined" =
      { l with combined := l.combined ++ [Mgr.fmt ts msg, Mgr.fmt ts msg] } := by
  simp [Mgr.log_message, Mgr.hasKey, Mgr.Logs.get, Mgr.Logs.set]

theorem Mgr.logMessage_api_eq (l : Mgr.Logs) (ts msg : String) :
    Mgr.log_message l ts msg "api" =
      { l with api := l.api ++ [Mgr.fmt ts msg],
               combined := l.combined ++ [Mgr.fmt ts msg] } := by
  simp [Mgr.log_message, Mgr.hasKey, Mgr.Logs.get, Mgr.Logs.set]

theorem Mgr.logMessage_frontend_eq (l : Mgr.Logs) (ts msg : String) :
    Mgr.log_message l ts msg "frontend" =
      { l with frontend := l.frontend ++ [Mgr.fmt ts msg],
               combined := l.combined ++ [Mgr.fmt ts msg] } := by
  simp [Mgr.log_message, Mgr.hasKey, Mgr.Logs.get, Mgr.Logs.set]

theorem Mgr.logMessage_websocket_eq (l : Mgr.Logs) (ts msg : String) :
    Mgr.log_message l ts msg "websocket" =
      { l with combined := l.combined ++ [Mgr.fmt ts msg] } := by
  simp [Mgr.log_message, Mgr.hasKey, Mgr.Logs.get, Mgr.Logs.set]

/-- C3: fan-in behaviour of both scripts, per call. In `start-manager.py`
the claim holds: a per-service call appends the entry once to its channel
(modulo the 1000-entry trim of that channel) and once to `combined`, and a
`combined` call appends once. In `StartManager.py` a call targeting `api`
or `frontend` fans in once, but a call targeting `combined` appends the
entry to `combined` twice, and a call naming the non-existent `websocket`
channel appends only to `combined`. -/
theorem C3_fan_in_per_call (l : SM.Logs) (lm : Mgr.Logs) (ts msg : String) :
    (SM.log_message l ts msg "api" =
      some { l with api := trim1000 (l.api ++ [SM.fmt ts msg]),
                    combined := l.combined ++ [SM.fmt ts msg] }) ∧
    (SM.log_message l ts msg "frontend" =
      some { l with frontend := trim1000 (l.frontend ++ [SM.fmt ts msg]),
                    combined := l.combined ++ [SM.fmt ts msg] }) ∧
    (SM.log_message l ts msg "websocket" =
      some { l with websocket := trim1000 (l.websocket ++ [SM.fmt ts msg]),
                    combined := l.combined ++ [SM.fmt ts msg] }) ∧
    (SM.log_message l ts msg "combined" =
      some { l with combined := trim1000 (l.combined ++ [SM.fmt ts msg]) }) ∧
    (Mgr.log_message lm ts msg "api" =
      { lm with api := lm.api ++ [Mgr.fmt ts msg],
                combined := lm.combined ++ [Mgr.fmt ts msg] }) ∧
    (Mgr.log_message lm ts msg "frontend" =
      { lm with frontend := lm.frontend ++ [Mgr.fmt ts msg],
                combined := lm.combined ++ [Mgr.fmt ts msg] }) ∧
    (Mgr.log_message lm ts msg "combined" =
      { lm with combined := lm.combined ++ [Mgr.fmt ts msg, Mgr.fmt ts msg] }) ∧
    (Mgr.log_message lm ts msg "websocket" =
      { lm with combined := lm.combined ++ [Mgr.fmt ts msg] }) :=
  ⟨SM.log_message_api_eq l ts msg, SM.log_message_frontend_eq l ts msg,
   SM.log_message_websocket_eq l ts msg, SM.log_message_combined_eq l ts msg,
   Mgr.logMessage_api_eq lm ts msg, Mgr.logMessage_frontend_eq lm ts msg,
   Mgr.logMessage_combined_eq lm ts msg, Mgr.logMessage_websocket_eq lm ts msg⟩

/-- C3 counterexample: in `StartManager.py` a `log_message` call targeting
`combined` adds the formatted entry to the `combined` channel twice, not
exactly once as claimed. -/
theorem C3_counterexample :
    (Mgr.log_message Mgr.initLogs "t" "m" "combined").combined =
      [Mgr.fmt "t" "m", Mgr.fmt "t" "m"] ∧
    (Mgr.log_message Mgr.initLogs "t" "m" "combined").combined.length ≠ 1 := by
  constructor <;> decide

/-- C10: in `start-manager.py`, `log_message` with a `log_type` outside the
four dict keys raises `KeyError` (modelled as `none`) instead of ignoring
the call or defaulting to `combined`. -/
theorem C10_unknown_log_type_keyerror (l : SM.Logs) (ts msg lt : String)
    (h : ¬ SM.validChannel lt) :
    SM.log_message l ts msg lt = none := by
  unfold SM.validChannel at h
  push_neg at h
  obtain ⟨h1, h2, h3, h4⟩ := h
  simp [SM.log_message, SM.Logs.get?, h1, h2, h3, h4]

/-- C10 witness: the unknown log type `bogus` raises `KeyError`. -/
theorem C10_unknown_log_type_keyerror_witness :
    SM.log_message SM.initLogs "t" "m" "bogus" = none :=
  C10_unknown_log_type_keyerror SM.initLogs "t" "m" "bogus" (by decide)

theorem Mgr.kill_map_dead (procs : List Mgr.OsProc) (port : Nat) :
    ∀ pr ∈ procs.map (fun q =>
        if q.alive && q.ports.contains port
        then { q with alive := false } else q),
      pr.ports.contains port = true → pr.alive = false := by
  intro pr hpr hport
  simp only [List.mem_map] at hpr
  obtain ⟨q, hq, hqe⟩ := hpr
  by_cases h : (q.alive && q.ports.contains port) = true
  · rw [if_pos h] at hqe
    rw [← hqe]
  · rw [if_neg h] at hqe
    subst hqe
    simp only [hport, Bool.and_true, Bool.not_eq_true] at h
    exact h

/-- C2: stop on a service with no tracked child handle. In
`start-manager.py` the claim holds in the strongest form — `stop_api_server`
and `stop_frontend_server` return the state untouched and perform no
subprocess call. In `StartManager.py` the same situation is not a no-op: the
stop falls back to `kill_port`, killing every OS process with a connection
on the service port (3001 for the API, 3000 for the frontend) before
reporting `Stopped`. -/
theorem C2_stop_on_stopped (envS : SM.Env) (stS : SM.State)
    (envM : Mgr.Env) (stM : Mgr.State)
    (hS : stS.api_process = none) (hSf : stS.frontend_process = none)
    (hM : stM.api_process = none) (hMf : stM.frontend_process = none) :
    (SM.stop_api_server envS stS = (stS, []) ∧
     SM.stop_frontend_server envS stS = (stS, [])) ∧
    ((Mgr.stop_api_server envM stM).1.api_status = "Stopped" ∧
     (Mgr.stop_api_server envM stM).2 =
       ((stM.os_procs.filter fun pr => pr.alive && pr.ports.contains 3001).map
         fun pr => Mgr.Action.killProc pr.pid 3001) ∧
     ∀ pr ∈ (Mgr.stop_api_server envM stM).1.os_procs,
       pr.ports.contains 3001 = true → pr.alive = false) ∧
    ((Mgr.stop_frontend envM stM).1.frontend_status = "Stopped" ∧
     (Mgr.stop_frontend envM stM).2 =
       ((stM.os_procs.filter fun pr => pr.alive && pr.ports.contains 3000).map
         fun pr => Mgr.Action.killProc pr.pid 3000) ∧
     ∀ pr ∈ (Mgr.stop_frontend envM stM).1.os_procs,
       pr.ports.contains 3000 = true → pr.alive = false) := by
  refine ⟨⟨?_, ?_⟩, ⟨?_, ?_, ?_⟩, ⟨?_, ?_, ?_⟩⟩
  · simp [SM.stop_api_server, hS]
  · simp [SM.stop_frontend_server, hSf]
  · simp [Mgr.stop_api_server, hM, Mgr.kill_port, Mgr.update_status]
  · simp [Mgr.stop_api_server, hM, Mgr.kill_port, Mgr.update_status]
  · intro pr hpr hport
    refine Mgr.kill_map_dead stM.os_procs 3001 pr ?_ hport
    simpa [Mgr.stop_api_server, hM, Mgr.kill_port, Mgr.update_status]
      using hpr
  · simp [Mgr.stop_frontend, hMf, Mgr.kill_port, Mgr.update_status]
  · simp [Mgr.stop_frontend, hMf, Mgr.kill_port, Mgr.update_status]
  · intro pr hpr hport
    refine Mgr.kill_map_dead stM.os_procs 3000 pr ?_ hport
    simpa [Mgr.stop_frontend, hMf, Mgr.kill_port, Mgr.update_status]
      using hpr

/-- C2 witness: with no tracked handle, `start-manager.py`'s stop leaves
the freshly initialised manager untouched, and `StartManager.py`'s stop
reports `Stopped`. -/
theorem C2_stop_on_stopped_witness :
    SM.stop_api_server
        ⟨"t", some "npm", true, true, 0, "", some ⟨1, true⟩, "", true, true,
          0, "", some ⟨2, true⟩, "", false, false⟩ SM.initState =
      (SM.initState, []) ∧
    (Mgr.stop_api_server ⟨"t", true, true, ⟨1, true⟩, ⟨2, true⟩, false, false⟩
        (Mgr.initState [])).1.api_status = "Stopped" := by
  have h := C2_stop_on_stopped
    ⟨"t", some "npm", true, true, 0, "", some ⟨1, true⟩, "", true, true, 0,
      "", some ⟨2, true⟩, "", false, false⟩ SM.initState
    ⟨"t", true, true, ⟨1, true⟩, ⟨2, true⟩, false, false⟩ (Mgr.initState [])
    rfl rfl rfl rfl
  exact ⟨h.1.1, h.2.1.1⟩

/-- C2 counterexample: in `StartManager.py`, stopping the API service while
no child is tracked kills the unrelated OS process 7 holding port 3001 and
records the kill — an action and a state change beyond reporting `Stopped`,
so the call is not a no-op as claimed. -/
theorem C2_counterexample :
    (Mgr.stop_api_server ⟨"t", true, true, ⟨1, true⟩, ⟨2, true⟩, false, false⟩
        (Mgr.initState [⟨7, [3001], true⟩])).1.os_procs =
      [⟨7, [3001], false⟩] ∧
    (Mgr.stop_api_server ⟨"t", true, true, ⟨1, true⟩, ⟨2, true⟩, false, false⟩
        (Mgr.initState [⟨7, [3001], true⟩])).2 =
      [Mgr.Action.killProc 7 3001] := by
  constructor <;> decide

/-- C4: readiness markers as implemented. In `StartManager.py` the API
monitor loop flips the status to `Running` on any output line containing
`"Server running on port 3001"` or `"listening on port 3001"`, with no port
probe. In `start-manager.py` no output line ever changes the API status —
`log_api_output` only logs — and the transition to `Running` is made by
`check_api_startup` from the port-3470 probe alone. The claimed marker
`"Server running on port 3470"` triggers no transition in either script
(`C4_counterexample`). -/
theorem C4_readiness_markers (stM : Mgr.State) (stS : SM.State)
    (ts line line2 : String) (hne : line ≠ "")
    (hmark : (strContains line "Server running on port 3001" ||
              strContains line "listening on port 3001") = true) :
    (Mgr.api_monitor_line stM ts line).api_status = "Running" ∧
    (SM.api_output_line stS ts line2).api_status = stS.api_status ∧
    (SM.check_api_startup stS ts true).api_status = "Running" := by
  refine ⟨?_, ?_, ?_⟩
  · simp [Mgr.api_monitor_line, hne, hmark, Mgr.update_status]
  · by_cases h : line2 = "" <;>
      simp [SM.api_output_line, SM.logState, h]
  · simp [SM.check_api_startup, SM.logState]

/-- C4 witness: the port-3001 marker line flips `StartManager.py`'s status
to `Running`, while the port-3470 marker line leaves `start-manager.py`'s
status untouched and only the port probe makes it `Running`. -/
theorem C4_readiness_markers_witness :
    (Mgr.api_monitor_line (Mgr.initState []) "t"
        "Server running on port 3001").api_status = "Running" ∧
    (SM.api_output_line SM.initState "t"
        "Server running on port 3470").api_status = "Stopped" ∧
    (SM.check_api_startup SM.initState "t" true).api_status = "Running" := by
  have h := C4_readiness_markers (Mgr.initState []) SM.initState "t"
    "Server running on port 3001" "Server running on port 3470"
    (by decide) (by decide)
  exact ⟨h.1, h.2.1, h.2.2⟩

/-- C4 counterexample: an output line containing the claimed marker
`"Server running on port 3470"` arriving while the API status is
`Starting...` does not make the status `Running` in either script. -/
theorem C4_counterexample :
    (Mgr.api_monitor_line
        { Mgr.initState [] with api_status := "Starting..." } "t"
        "Server running on port 3470").api_status = "Starting..." ∧
    (SM.api_output_line
        { SM.initState with api_status := "Starting..." } "t"
        "Server running on port 3470").api_status = "Starting..." := by
  constructor <;> decide

/-- C5: a missing `api-server/package.json`. In `start-manager.py` the
claim holds: `start_api_server` logs
`Error: API server package.json not found`, performs no subprocess call and
leaves the handle and status untouched. In `StartManager.py` there is no
manifest check at all: whenever no live handle is tracked the child is
spawned regardless of the manifest (no manifest hypothesis appears in the
`Mgr` conjuncts). -/
theorem C5_missing_manifest (env : SM.Env) (st : SM.State)
    (envM : Mgr.Env) (stM : Mgr.State)
    (halive : SM.apiAlive st = false)
    (hnpm : env.npm_cmd.isNone = false)
    (hman : env.api_manifest = false)
    (hMalive : Mgr.apiAlive stM = false) :
    (SM.start_api_server env st =
       (SM.logState st env.ts "Error: API server package.json not found"
         "combined", []) ∧
     (SM.start_api_server env st).1.api_process = st.api_process ∧
     (SM.start_api_server env st).1.api_status = st.api_status) ∧
    (Mgr.Action.popen "api-server" ∈ (Mgr.start_api_server envM stM).2 ∧
     (Mgr.start_api_server envM stM).1.api_process = some envM.new_api_proc) := by
  refine ⟨⟨?_, ?_, ?_⟩, ⟨?_, ?_⟩⟩
  · simp [SM.start_api_server, halive, hnpm, hman]
  · simp [SM.start_api_server, SM.logState, halive, hnpm, hman]
  · simp [SM.start_api_server, SM.logState, halive, hnpm, hman]
  · simp [Mgr.start_api_server, hMalive, Mgr.kill_port, Mgr.update_status]
  · simp [Mgr.start_api_server, hMalive, Mgr.kill_port, Mgr.update_status]

/-- C5 witness: on a fresh manager with the API manifest absent,
`start-manager.py` performs no subprocess call and keeps the handle empty,
while `StartManager.py` still spawns. -/
theorem C5_missing_manifest_witness :
    (SM.start_api_server
        ⟨"t", some "npm", false, true, 0, "", some ⟨1, true⟩, "", true, true,
          0, "", some ⟨2, true⟩, "", false, false⟩ SM.initState).2 = [] ∧
    (SM.start_api_server
        ⟨"t", some "npm", false, true, 0, "", some ⟨1, true⟩, "", true, true,
          0, "", some ⟨2, true⟩, "", false, false⟩
        SM.initState).1.api_process = none ∧
    Mgr.Action.popen "api-server" ∈
      (Mgr.start_api_server ⟨"t", false, true, ⟨5, true⟩, ⟨6, true⟩, false,
          false⟩ (Mgr.initState [])).2 := by
  have h := C5_missing_manifest
    ⟨"t", some "npm", false, true, 0, "", some ⟨1, true⟩, "", true, true, 0,
      "", some ⟨2, true⟩, "", false, false⟩ SM.initState
    ⟨"t", false, true, ⟨5, true⟩, ⟨6, true⟩, false, false⟩ (Mgr.initState [])
    rfl rfl rfl rfl
  refine ⟨?_, ?_, h.2.1⟩
  · rw [h.1.1]
  · exact h.1.2.1

/-- C5 counterexample: in `StartManager.py`, with `api-server/package.json`
absent (`api_manifest := false` in the environment) and nothing tracked,
`start("api")` still spawns the child and sets status `Starting...` — a
child process is created and the state does not stay `Stopped`, contrary to
the claim. -/
theorem C5_counterexample :
    (Mgr.start_api_server ⟨"t", false, true, ⟨5, true⟩, ⟨6, true⟩, false,
        false⟩ (Mgr.initState [])).2 =
      [Mgr.Action.sleep 2, Mgr.Action.popen "api-server"] ∧
    (Mgr.start_api_server ⟨"t", false, true, ⟨5, true⟩, ⟨6, true⟩, false,
        false⟩ (Mgr.initState [])).1.api_process = some ⟨5, true⟩ ∧
    (Mgr.start_api_server ⟨"t", false, true, ⟨5, true⟩, ⟨6, true⟩, false,
        false⟩ (Mgr.initState [])).1.api_status = "Starting..." := by
  refine ⟨?_, ?_, ?_⟩ <;> decide

/-- C6: in `start-manager.py`, when `node_modules` is absent the
`npm install` subprocess is the first subprocess call of the start attempt,
and a non-zero install exit code ends the attempt with no `Popen`: the
trace is exactly the install run and the tracked handle is unchanged. -/
theorem C6_install_gate (env : SM.Env) (st : SM.State)
    (ha : SM.apiAlive st = false) (hf : SM.frontendAlive st = false)
    (hnpm : env.npm_cmd.isNone = false)
    (hmanA : env.api_manifest = true) (hmanF : env.frontend_manifest = true)
    (hnmA : env.api_node_modules = false)
    (hnmF : env.frontend_node_modules = false) :
    ((SM.start_api_server env st).2.head? =
       some (SM.Action.runInstall "api-server") ∧
     (env.api_install_code ≠ 0 →
        (SM.start_api_server env st).2 = [SM.Action.runInstall "api-server"] ∧
        (SM.start_api_server env st).1.api_process = st.api_process)) ∧
    ((SM.start_frontend_server env st).2.head? =
       some (SM.Action.runInstall "admin-frontend") ∧
     (env.frontend_install_code ≠ 0 →
        (SM.start_frontend_server env st).2 =
          [SM.Action.runInstall "admin-frontend"] ∧
        (SM.start_frontend_server env st).1.frontend_process =
          st.frontend_process)) := by
  refine ⟨⟨?_, fun hc => ⟨?_, ?_⟩⟩, ⟨?_, fun hc => ⟨?_, ?_⟩⟩⟩
  · by_cases hc : env.api_install_code ≠ 0
    · simp [SM.start_api_server, ha, hnpm, hmanA, hnmA, hc]
    · cases hp : env.api_popen <;>
        simp [SM.start_api_server, SM.startApiSpawn, ha, hnpm, hmanA, hnmA,
          hc, hp]
  · simp [SM.start_api_server, ha, hnpm, hmanA, hnmA, hc]
  · simp [SM.start_api_server, SM.logState, ha, hnpm, hmanA, hnmA, hc]
  · by_cases hc : env.frontend_install_code ≠ 0
    · simp [SM.start_frontend_server, hf, hnpm, hmanF, hnmF, hc]
    · cases hp : env.frontend_popen <;>
        simp [SM.start_frontend_server, SM.startFrontendSpawn, hf, hnpm,
          hmanF, hnmF, hc, hp]
  · simp [SM.start_frontend_server, hf, hnpm, hmanF, hnmF, hc]
  · simp [SM.start_frontend_server, SM.logState, hf, hnpm, hmanF, hnmF, hc]

/-- C6 witness: with `node_modules` absent and the install exiting with
code 1, both start attempts run only the install and spawn nothing. -/
theorem C6_install_gate_witness :
    (SM.start_api_server
        ⟨"t", some "npm", true, false, 1, "boom", some ⟨1, true⟩, "", true,
          false, 1, "boom", some ⟨2, true⟩, "", false, false⟩
        SM.initState).2 = [SM.Action.runInstall "api-server"] ∧
    (SM.start_frontend_server
        ⟨"t", some "npm", true, false, 1, "boom", some ⟨1, true⟩, "", true,
          false, 1, "boom", some ⟨2, true⟩, "", false, false⟩
        SM.initState).2 = [SM.Action.runInstall "admin-frontend"] := by
  have h := C6_install_gate
    ⟨"t", some "npm", true, false, 1, "boom", some ⟨1, true⟩, "", true,
      false, 1, "boom", some ⟨2, true⟩, "", false, false⟩
    SM.initState rfl rfl rfl rfl rfl rfl rfl
  exact ⟨(h.1.2 (by decide)).1, (h.2.2 (by decide)).1⟩

/-- C7: in both scripts, calling start while the tracked handle is alive
returns after only logging: no subprocess call is made and the handle and
status of the service are unchanged. -/
theorem C7_start_noop_when_alive (envS : SM.Env) (stS : SM.State)
    (envM : Mgr.Env) (stM : Mgr.State)
    (hS : SM.apiAlive stS = true) (hSf : SM.frontendAlive stS = true)
    (hM : Mgr.apiAlive stM = true) (hMf : Mgr.frontendAlive stM = true) :
    ((SM.start_api_server envS stS).2 = [] ∧
     (SM.start_api_server envS stS).1.api_process = stS.api_process ∧
     (SM.start_api_server envS stS).1.api_status = stS.api_status) ∧
    ((SM.start_frontend_server envS stS).2 = [] ∧
     (SM.start_frontend_server envS stS).1.frontend_process =
       stS.frontend_process ∧
     (SM.start_frontend_server envS stS).1.frontend_status =
       stS.frontend_status) ∧
    ((Mgr.start_api_server envM stM).2 = [] ∧
     (Mgr.start_api_server envM stM).1.api_process = stM.api_process ∧
     (Mgr.start_api_server envM stM).1.api_status = stM.api_status) ∧
    ((Mgr.start_frontend envM stM).2 = [] ∧
     (Mgr.start_frontend envM stM).1.frontend_process =
       stM.frontend_process ∧
     (Mgr.start_frontend envM stM).1.frontend_status =
       stM.frontend_status) := by
  refine ⟨⟨?_, ?_, ?_⟩, ⟨?_, ?_, ?_⟩, ⟨?_, ?_, ?_⟩, ⟨?_, ?_, ?_⟩⟩ <;>
    simp [SM.start_api_server, SM.start_frontend_server,
      Mgr.start_api_server, Mgr.start_frontend, SM.logState, hS, hSf, hM,
      hMf]

/-- C7 witness: with live handles tracked for both services in both
scripts, every start call performs no subprocess call. -/
theorem C7_start_noop_when_alive_witness :
    (SM.start_api_server
        ⟨"t", some "npm", true, true, 0, "", some ⟨1, true⟩, "", true, true,
          0, "", some ⟨2, true⟩, "", false, false⟩
        { SM.initState with api_process := some ⟨1, true⟩,
                            frontend_process := some ⟨2, true⟩ }).2 = [] ∧
    (Mgr.start_api_server ⟨"t", true, true, ⟨1, true⟩, ⟨2, true⟩, false,
        false⟩
        { Mgr.initState [] with api_process := some ⟨1, true⟩,
                                frontend_process := some ⟨2, true⟩ }).2 = [] := by
  have h := C7_start_noop_when_alive
    ⟨"t", some "npm", true, true, 0, "", some ⟨1, true⟩, "", true, true, 0,
      "", some ⟨2, true⟩, "", false, false⟩
    { SM.initState with api_process := some ⟨1, true⟩,
                        frontend_process := some ⟨2, true⟩ }
    ⟨"t", true, true, ⟨1, true⟩, ⟨2, true⟩, false, false⟩
    { Mgr.initState [] with api_process := some ⟨1, true⟩,
                            frontend_process := some ⟨2, true⟩ }
    rfl rfl rfl rfl
  exact ⟨h.1.1, h.2.2.1.1⟩

/-- C8: clearing log channels. In `start-manager.py` the claim holds:
`clear_logs` empties exactly the selected channel and every other channel
keeps its entries. In `StartManager.py`, `clear_logs` takes no channel
argument and rebinds the whole dict: every channel is emptied and the
subsequent `Logs cleared` call leaves `combined` holding just that entry
twice. -/
theorem C8_clear_exact_channel (l : SM.Logs) (t u : String)
    (ht : SM.validChannel t) (hu : SM.validChannel u) (hne : u ≠ t)
    (stM : Mgr.State) (ts : String) :
    ((SM.clear_logs l t).isSome = true ∧
     ((SM.clear_logs l t).getD l).get? t = some [] ∧
     ((SM.clear_logs l t).getD l).get? u = l.get? u) ∧
    (Mgr.clear_logs ts stM).logs =
      ⟨[Mgr.fmt ts "Logs cleared", Mgr.fmt ts "Logs cleared"], [], []⟩ := by
  refine ⟨⟨?_, ?_, ?_⟩, ?_⟩
  · rcases ht with h | h | h | h <;> subst h <;>
      simp [SM.clear_logs, SM.Logs.get?]
  · rcases ht with h | h | h | h <;> subst h <;>
      simp [SM.clear_logs, SM.Logs.get?, SM.Logs.set]
  · rcases ht with h | h | h | h <;> subst h <;>
      rcases hu with h | h | h | h <;>
        simp_all [SM.clear_logs, SM.Logs.get?, SM.Logs.set]
  · simp [Mgr.clear_logs, Mgr.log_message, Mgr.hasKey, Mgr.Logs.get,
      Mgr.Logs.set]

/-- C8 witness: clearing the `api` channel of `start-manager.py` empties it
and leaves `combined` intact, while `StartManager.py`'s clear resets every
channel. -/
theorem C8_clear_exact_channel_witness :
    ((SM.clear_logs ⟨["c"], ["a"], [], []⟩ "api").getD
        ⟨["c"], ["a"], [], []⟩).get? "api" = some [] ∧
    ((SM.clear_logs ⟨["c"], ["a"], [], []⟩ "api").getD
        ⟨["c"], ["a"], [], []⟩).get? "combined" =
      (⟨["c"], ["a"], [], []⟩ : SM.Logs).get? "combined" ∧
    (Mgr.clear_logs "t" (Mgr.initState [])).logs =
      ⟨[Mgr.fmt "t" "Logs cleared", Mgr.fmt "t" "Logs cleared"], [], []⟩ := by
  have h := C8_clear_exact_channel ⟨["c"], ["a"], [], []⟩ "api" "combined"
    (Or.inr (Or.inl rfl)) (Or.inl rfl) (by decide) (Mgr.initState []) "t"
  exact ⟨h.1.2.1, h.1.2.2, h.2⟩

/-- C8 counterexample: in `StartManager.py` a `clear_logs` call empties the
`api` channel as well, so entries previously fanned into other channels are
not preserved, contrary to the claim. -/
theorem C8_counterexample :
    (Mgr.clear_logs "t"
        { Mgr.initState [] with logs := ⟨["x"], ["x"], []⟩ }).logs.api = [] ∧
    ({ Mgr.initState [] with
        logs := (⟨["x"], ["x"], []⟩ : Mgr.Logs) } : Mgr.State).logs.api =
      ["x"] := by
  constructor <;> decide

/-- C9: in `StartManager.py`, whenever start proceeds to spawn because no
live handle is tracked, the action trace is exactly the `kill_port` kills
of every running OS process with a connection on the service port (3001 for
the API, 3000 for the frontend), followed by the 2 second sleep and the
`Popen`; afterwards no process on that port is left alive. -/
theorem C9_kill_port_before_spawn (env : Mgr.Env) (st : Mgr.State)
    (hM : Mgr.apiAlive st = false) (hMf : Mgr.frontendAlive st = false) :
    ((Mgr.start_api_server env st).2 =
       ((st.os_procs.filter fun pr => pr.alive && pr.ports.contains 3001).map
         fun pr => Mgr.Action.killProc pr.pid 3001) ++
       [Mgr.Action.sleep 2, Mgr.Action.popen "api-server"] ∧
     ∀ pr ∈ (Mgr.start_api_server env st).1.os_procs,
       pr.ports.contains 3001 = true → pr.alive = false) ∧
    ((Mgr.start_frontend env st).2 =
       ((st.os_procs.filter fun pr => pr.alive && pr.ports.contains 3000).map
         fun pr => Mgr.Action.killProc pr.pid 3000) ++
       [Mgr.Action.sleep 2, Mgr.Action.popen "admin-frontend"] ∧
     ∀ pr ∈ (Mgr.start_frontend env st).1.os_procs,
       pr.ports.contains 3000 = true → pr.alive = false) := by
  refine ⟨⟨?_, ?_⟩, ⟨?_, ?_⟩⟩
  · simp [Mgr.start_api_server, hM, Mgr.kill_port, Mgr.update_status]
  · intro pr hpr hport
    refine Mgr.kill_map_dead st.os_procs 3001 pr ?_ hport
    simpa [Mgr.start_api_server, hM, Mgr.kill_port, Mgr.update_status]
      using hpr
  · simp [Mgr.start_frontend, hMf, Mgr.kill_port, Mgr.update_status]
  · intro pr hpr hport
    refine Mgr.kill_map_dead st.os_procs 3000 pr ?_ hport
    simpa [Mgr.start_frontend, hMf, Mgr.kill_port, Mgr.update_status]
      using hpr

/-- C9 witness: with process 9 on port 3001 and process 10 on port 3000,
starting the API kills process 9 before spawning and starting the frontend
kills process 10 before spawning. -/
theorem C9_kill_port_before_spawn_witness :
    (Mgr.start_api_server ⟨"t", true, true, ⟨1, true⟩, ⟨2, true⟩, false,
        false⟩
        (Mgr.initState [⟨9, [3001], true⟩, ⟨10, [3000], true⟩])).2 =
      [Mgr.Action.killProc 9 3001, Mgr.Action.sleep 2,
       Mgr.Action.popen "api-server"] ∧
    (Mgr.start_frontend ⟨"t", true, true, ⟨1, true⟩, ⟨2, true⟩, false,
        false⟩
        (Mgr.initState [⟨9, [3001], true⟩, ⟨10, [3000], true⟩])).2 =
      [Mgr.Action.killProc 10 3000, Mgr.Action.sleep 2,
       Mgr.Action.popen "admin-frontend"] := by
  have h := C9_kill_port_before_spawn
    ⟨"t", true, true, ⟨1, true⟩, ⟨2, true⟩, false, false⟩
    (Mgr.initState [⟨9, [3001], true⟩, ⟨10, [3000], true⟩]) rfl rfl
  constructor
  · rw [h.1.1]; decide
  · rw [h.2.1]; decide

end Krapi
